import Mathlib

/-!
Shallow embedding of the Softronix e-commerce backend core
(cart pricing, coupon engine, negotiation gate, checkout
validation and the payment-webhook fulfillment pipeline),
translated from the JavaScript source files:

  backend/src/models/Coupon.js
  backend/src/models/Cart.js            (and the Order schema)
  backend/src/controllers/cartController.js
  backend/src/controllers/clerkController.js
  backend/src/services (negotiationService.validateDiscount)

JS numbers are modelled as exact rationals (ℚ); `Math.round`
is half-up rounding (`Math.round x = ⌊x + 1/2⌋`), timestamps
are integers, Mongo documents are Lean structures, and the
database touched by the webhook is an explicit `StoreState`
threaded through the fulfillment function.
-/

namespace Softronix

/-! ## Money utility: `Math.round(x * 100) / 100` -/

/-- JS `Math.round(x * 100) / 100`: half-up rounding to 2 decimals
(JS `Math.round y = ⌊y + 1/2⌋`, rounding halves toward +∞). -/
def round2 (x : ℚ) : ℚ := ((⌊x * 100 + 1 / 2⌋ : ℤ) : ℚ) / 100

/-! ## Coupon model (models/Coupon.js) -/

/-- `discountType` enum `["percentage", "fixed"]`. -/
inductive DiscountType
| percentage
| fixed
deriving DecidableEq, Repr

/-- The distinct user-facing failure reasons returned by
`couponSchema.methods.isValid` (the reason strings of the source are
abstracted to an enumeration, one constructor per `return` site). -/
inductive Reason
| inactive
| expired
| usageLimitReached
| alreadyUsed
| belowMinimum
deriving DecidableEq, Repr

/-- Result shape `{ valid: true } | { valid: false, reason }`. -/
inductive IsValidResult
| valid
| invalid (r : Reason)
deriving DecidableEq, Repr

/-- Coupon document (couponSchema).  `null`able fields are `Option`s
(`maxDiscount`, `expiresAt`, `usageLimit` default to `null` in the
schema); `usedBy` keeps only the user ids of the usage records. -/
structure Coupon where
  code : String
  discountType : DiscountType
  discountValue : ℚ
  minPurchase : ℚ := 0
  maxDiscount : Option ℚ := none
  expiresAt : Option ℤ := none
  usageLimit : Option ℕ := none
  usedCount : ℕ := 0
  usedBy : List String := []
  onePerUser : Bool := true
  isActive : Bool := true
  stripePromotionCodeId : Option String := none
deriving DecidableEq, Repr

/-- `couponSchema.methods.isValid(cartSubtotal, userId)`.
`now` stands for `new Date()`; `userId` is `none` when the caller
passes a falsy user id (JS `this.onePerUser && userId`). -/
def Coupon.isValid (c : Coupon) (now : ℤ) (cartSubtotal : ℚ)
    (userId : Option String) : IsValidResult :=
  if !c.isActive then .invalid .inactive
  else if (match c.expiresAt with
           | some e => decide (now > e)
           | none => false) then .invalid .expired
  else if (match c.usageLimit with
           | some l => decide (c.usedCount ≥ l)
           | none => false) then .invalid .usageLimitReached
  else if (c.onePerUser && (match userId with
           | some u => c.usedBy.contains u
           | none => false)) then .invalid .alreadyUsed
  else if decide (cartSubtotal < c.minPurchase) then .invalid .belowMinimum
  else .valid

/-- `couponSchema.methods.calculateDiscount(subtotal)`. -/
def Coupon.calculateDiscount (c : Coupon) (subtotal : ℚ) : ℚ :=
  let discount : ℚ :=
    match c.discountType with
    | .percentage => subtotal * (c.discountValue / 100)
    | .fixed => c.discountValue
  let discount : ℚ :=
    match c.maxDiscount with
    | some m => if discount > m then m else discount
    | none => discount
  let discount : ℚ := min discount subtotal
  round2 discount

/-- `couponSchema.methods.recordUsage(userId)`: increments `usedCount`
and, when a user id is given, appends a usage record. -/
def Coupon.recordUsage (c : Coupon) (userId : Option String) : Coupon :=
  { c with
    usedCount := c.usedCount + 1
    usedBy := match userId with
      | some u => c.usedBy ++ [u]
      | none => c.usedBy }

/-! Spec-side rendering of §4.2 `evaluate`: the five checks in their
fixed order, first failing check wins. -/

/-- First failing check wins; no failing check means the coupon is valid. -/
def firstFailing : List (Bool × Reason) → IsValidResult
  | [] => .valid
  | (b, r) :: rest => if b then .invalid r else firstFailing rest

/-- The ordered checks (a)–(e) of §4.2, written from the spec:
inactive, expired (`now > expiresAt`), usage limit reached
(`usedCount ≥ usageLimit`), one-per-user violation (user id present in
the usage records), subtotal below `minPurchase`. -/
def specChecks (c : Coupon) (now : ℤ) (cartSubtotal : ℚ)
    (userId : String) : List (Bool × Reason) :=
  [ (!c.isActive, .inactive),
    ((match c.expiresAt with
      | some e => decide (now > e)
      | none => false), .expired),
    ((match c.usageLimit with
      | some l => decide (c.usedCount ≥ l)
      | none => false), .usageLimitReached),
    (c.onePerUser && c.usedBy.contains userId, .alreadyUsed),
    (decide (cartSubtotal < c.minPurchase), .belowMinimum) ]

/-! Spec-side rendering of §4.2 `computeDiscount`'s raw amount and cap. -/

/-- Raw discount amount per §4.2: percentage → `subtotal * value/100`,
fixed → `value`. -/
def rawDiscount (c : Coupon) (subtotal : ℚ) : ℚ :=
  match c.discountType with
  | .percentage => subtotal * (c.discountValue / 100)
  | .fixed => c.discountValue

/-- `min(amount, maxDiscountCap or ∞)` per §4.2: a missing cap leaves
the amount unchanged. -/
def capClamp (c : Coupon) (d : ℚ) : ℚ :=
  match c.maxDiscount with
  | some m => min d m
  | none => d

/-! ## Cart model (models/Cart.js) -/

/-- Line item (cartItemSchema): product reference, quantity, optional
variant selectors, and the add-time price snapshot. -/
structure CartItem where
  productId : String
  quantity : ℤ
  size : Option String := none
  color : Option String := none
  price : ℚ
deriving DecidableEq, Repr

/-- `appliedCoupon` subdocument: a denormalized snapshot
(code/discountType/discountValue), all fields `null`able. -/
structure AppliedCoupon where
  code : Option String := none
  discountType : Option DiscountType := none
  discountValue : ℚ := 0
deriving DecidableEq, Repr

/-- Cart document (cartSchema): one per user; since `userId` is the
cart's unique key, it doubles as the cart's identifier (`_id`) in this
embedding. -/
structure Cart where
  userId : String
  items : List CartItem := []
  appliedCoupon : AppliedCoupon := {}
deriving DecidableEq, Repr

/-- Virtual `subtotal`: `items.reduce((sum, i) => sum + i.price * i.quantity, 0)`. -/
def Cart.subtotal (c : Cart) : ℚ :=
  c.items.foldl (fun sum item => sum + item.price * (item.quantity : ℚ)) 0

/-- Virtual `discount`: 0 without a coupon code; a percentage snapshot
gives `Math.round(sub * (value/100) * 100)/100`; a fixed snapshot gives
`Math.min(value, sub)`; a snapshot with a code but no recognised type
gives 0. -/
def Cart.discount (c : Cart) : ℚ :=
  match c.appliedCoupon.code with
  | none => 0
  | some _ =>
    match c.appliedCoupon.discountType with
    | some .percentage => round2 (c.subtotal * (c.appliedCoupon.discountValue / 100))
    | some .fixed => min c.appliedCoupon.discountValue c.subtotal
    | none => 0

/-- Virtual `total`: `Math.max(0, Math.round((subtotal - discount) * 100) / 100)`. -/
def Cart.total (c : Cart) : ℚ :=
  max 0 (round2 (c.subtotal - c.discount))

/-- A coupon whose engine-relevant fields are the cart's applied-coupon
snapshot (code, discountType, discountValue) and whose remaining fields
are the schema defaults; used to compare the cart pricing view with the
coupon engine. -/
def snapshotCoupon (ac : AppliedCoupon) (dt : DiscountType) : Coupon :=
  { code := ac.code.getD ""
    discountType := dt
    discountValue := ac.discountValue }

/-! ## Product collaborator (the fields the core consumes, §6) -/

/-- Product fields consumed by the core: effective price data, stock,
variant option sets, activity flag and the negotiation configuration. -/
structure Product where
  name : String
  price : ℚ
  discountedPrice : Option ℚ := none
  stock : ℤ
  isActive : Bool := true
  sizes : List String := []
  colors : List String := []
  negotiationEnabled : Bool := false
  hiddenBottomPrice : Option ℚ := none
deriving DecidableEq, Repr

/-- Effective price `product.discountedPrice ?? product.price`. -/
def Product.effectivePrice (p : Product) : ℚ :=
  p.discountedPrice.getD p.price

/-! ## Negotiation gate (negotiationService.validateDiscount) -/

/-- `Math.floor(x * 10) / 10`: floor to one decimal place. -/
def floor1 (x : ℚ) : ℚ := ((⌊x * 10⌋ : ℤ) : ℚ) / 10

/-- Result of `validateDiscount`: the two `allowed: false` early returns
(negotiation disabled / no positive floor configured), the rejection
carrying `maxDiscount` and `maxPercentage`, and the allowed outcome. -/
inductive NegotiationResult
| notEligible
| noFloorConfigured
| rejected (maxDiscount : ℚ) (maxPercentage : ℚ)
| allowed (discountAmount : ℚ) (effectivePrice : ℚ) (maxDiscount : ℚ)
deriving DecidableEq, Repr

/-- Proposed discount amount exactly as `validateDiscount` computes it:
percentage → `currentPrice * (value/100)`, otherwise the raw value. -/
def proposedAmount (currentPrice : ℚ) (discountType : DiscountType)
    (discountValue : ℚ) : ℚ :=
  match discountType with
  | .percentage => currentPrice * (discountValue / 100)
  | .fixed => discountValue

/-- `validateDiscount(product, discountType, discountValue)` from the
negotiation service: a pure validation gate (it mutates nothing; in this
embedding that is reflected by its plain function type). -/
def validateDiscount (p : Product) (discountType : DiscountType)
    (discountValue : ℚ) : NegotiationResult :=
  let currentPrice := p.discountedPrice.getD p.price
  if !p.negotiationEnabled then .notEligible
  else
    match p.hiddenBottomPrice with
    | none => .noFloorConfigured
    | some bottomPrice =>
      if bottomPrice ≤ 0 then .noFloorConfigured
      else
        let discountAmount := proposedAmount currentPrice discountType discountValue
        let effectivePrice := currentPrice - discountAmount
        let maxAllowedDiscount := currentPrice - bottomPrice
        let maxAllowedPercentage := floor1 (maxAllowedDiscount / currentPrice * 100)
        if effectivePrice < bottomPrice then
          .rejected maxAllowedDiscount maxAllowedPercentage
        else
          .allowed (round2 discountAmount) (round2 effectivePrice)
            (round2 maxAllowedDiscount)

/-! ## Cart controller (cartController.js): addToCart, syncCart,
createCheckoutFromCart -/

/-- JS `x || null` on an optional string: the empty string is falsy and
collapses to `null`. -/
def normOpt : Option String → Option String
  | some s => if s = "" then none else some s
  | none => none

/-- The composite line-item key match used by both addToCart and
syncCart: `item.productId === pid && item.size === sz && item.color === co`. -/
def itemMatches (pid : String) (sz co : Option String) (it : CartItem) : Bool :=
  it.productId == pid && it.size == sz && it.color == co

/-- Error message `` `Only ${product.stock} items in stock` ``. -/
def stockMessage (stock : ℤ) : String :=
  "Only " ++ toString stock ++ " items in stock"

/-- Error message for a missing/inactive product in addToCart. -/
def productNotFoundMessage : String :=
  "Product not found"

/-- Error message for an unavailable size. -/
def sizeUnavailableMessage (s : String) : String :=
  "Size " ++ s ++ " not available"

/-- Error message for an unavailable color. -/
def colorUnavailableMessage (s : String) : String :=
  "Color " ++ s ++ " not available"

/-- Add-to-cart request body `{ productId, quantity = 1, size, color }`. -/
structure AddRequest where
  productId : String
  quantity : ℤ := 1
  size : Option String := none
  color : Option String := none

/-- `addToCart`: validates the product (exists, active), the stock bound,
and the variant selectors, then merges into an existing matching line
(re-checking the stock bound on the merged quantity) or appends a new
line priced at the product's effective price. -/
def addToCart (lookup : String → Option Product) (cart : Cart)
    (req : AddRequest) : Except String Cart :=
  match lookup req.productId with
  | none => .error productNotFoundMessage
  | some p =>
    if !p.isActive then .error productNotFoundMessage
    else if p.stock < req.quantity then .error (stockMessage p.stock)
    else
      match req.size with
      | some s =>
        if s ≠ "" && !p.sizes.isEmpty && !p.sizes.contains s then
          .error (sizeUnavailableMessage s)
        else addToCartCheckColor lookup cart req p
      | none => addToCartCheckColor lookup cart req p
where
  addToCartCore (cart : Cart) (req : AddRequest) (p : Product) : Except String Cart :=
    let sz := normOpt req.size
    let co := normOpt req.color
    match cart.items.findIdx? (fun it => itemMatches req.productId sz co it) with
    | some i =>
      match cart.items[i]? with
      | some it =>
        let newQty := it.quantity + req.quantity
        if p.stock < newQty then .error (stockMessage p.stock)
        else .ok { cart with items := cart.items.set i { it with quantity := newQty } }
      | none => .ok cart
    | none =>
      .ok { cart with items := cart.items ++
        [{ productId := req.productId, quantity := req.quantity,
           size := sz, color := co, price := p.effectivePrice }] }
  addToCartCheckColor (_lookup : String → Option Product) (cart : Cart)
      (req : AddRequest) (p : Product) : Except String Cart :=
    match req.color with
    | some s =>
      if s ≠ "" && !p.colors.isEmpty && !p.colors.contains s then
        .error (colorUnavailableMessage s)
      else addToCartCore cart req p
    | none => addToCartCore cart req p

/-- Incoming local-storage cart line for `syncCart`:
`{ productId, quantity, size, color }` (quantity may be absent/zero;
`Number(q) || 1` falls back to 1). -/
structure IncomingItem where
  productId : String
  quantity : ℤ := 0
  size : Option String := none
  color : Option String := none

/-- `Number(incoming.quantity) || 1`. -/
def quantityOr1 (q : ℤ) : ℤ := if q = 0 then 1 else q

/-- One iteration of syncCart's merge loop, for a single incoming item:
skip silently when the product is missing or inactive; otherwise clamp
the incoming quantity to stock, merge into the first matching line
(clamping the summed quantity to stock and refreshing the price
snapshot to the current effective price) or append a new line. -/
def syncOne (lookup : String → Option Product) (items : List CartItem)
    (incoming : IncomingItem) : List CartItem :=
  match lookup incoming.productId with
  | none => items
  | some p =>
    if !p.isActive then items
    else
      let sz := normOpt incoming.size
      let co := normOpt incoming.color
      let qty := min (quantityOr1 incoming.quantity) p.stock
      match items.findIdx? (fun it => itemMatches incoming.productId sz co it) with
      | some i =>
        match items[i]? with
        | some it =>
          items.set i { it with
            quantity := min (it.quantity + qty) p.stock
            price := p.effectivePrice }
        | none => items
      | none =>
        items ++ [{ productId := incoming.productId, quantity := qty,
                    size := sz, color := co, price := p.effectivePrice }]

/-- `syncCart`: folds the merge step over the incoming items. -/
def syncCart (lookup : String → Option Product) (items : List CartItem)
    (incomings : List IncomingItem) : List CartItem :=
  incomings.foldl (syncOne lookup) items

/-! Checkout-session creation from the cart. -/

/-- Error message `Cart is empty`. -/
def cartEmptyMessage : String := "Cart is empty"

/-- Error message for a missing/inactive product at checkout. -/
def unavailableMessage (name : String) : String :=
  name ++ " is no longer available"

/-- Error message `` `"${name}" only has ${stock} in stock` ``. -/
def checkoutStockMessage (name : String) (stock : ℤ) : String :=
  name ++ " only has " ++ toString stock ++ " in stock"

/-- Stripe line item: unit price in integer minor units
(`Math.round(unitPrice * 100)`) plus the quantity. -/
structure CheckoutLine where
  name : String
  unitAmount : ℤ
  quantity : ℤ
deriving DecidableEq, Repr

/-- The outbound checkout request: line items plus the metadata payload
(cart id, coupon code, serialized line items) echoed back by the
provider on confirmation. -/
structure SessionRequest where
  lineItems : List CheckoutLine
  couponCode : Option String
  stripePromotionCodeId : Option String
  cartId : String
  metaItems : List CartItem
deriving DecidableEq, Repr

/-- The per-item validation loop of `createCheckoutFromCart`: the first
missing/inactive product or stock shortfall yields its error message. -/
def validateCheckoutItems (lookup : String → Option Product) :
    List CartItem → Option String
  | [] => none
  | it :: rest =>
    match lookup it.productId with
    | none => some (unavailableMessage it.productId)
    | some p =>
      if !p.isActive then some (unavailableMessage p.name)
      else if p.stock < it.quantity then some (checkoutStockMessage p.name p.stock)
      else validateCheckoutItems lookup rest

/-- `createCheckoutFromCart`: rejects an empty cart, validates stock and
activity for every item (failing the whole operation on the first bad
item, before any session is created), resolves the applied coupon by
code and active flag, and builds the provider request from the frozen
cart price snapshots. -/
def createCheckoutFromCart (lookup : String → Option Product)
    (coupons : List Coupon) (cart : Cart) : Except String SessionRequest :=
  if cart.items.isEmpty then .error cartEmptyMessage
  else
    match validateCheckoutItems lookup cart.items with
    | some msg => .error msg
    | none =>
      let resolved : Option Coupon := match cart.appliedCoupon.code with
        | some code => coupons.find? (fun c => c.code == code && c.isActive)
        | none => none
      .ok {
        lineItems := cart.items.map (fun it =>
          { name := (lookup it.productId).elim it.productId Product.name
            unitAmount := ⌊(it.price * 100 + 1 / 2 : ℚ)⌋
            quantity := it.quantity })
        couponCode := resolved.map Coupon.code
        stripePromotionCodeId := resolved.bind Coupon.stripePromotionCodeId
        cartId := cart.userId
        metaItems := cart.items }

/-! ## Fulfillment pipeline (handleWebhook) -/

/-- Default currency `"usd"`. -/
def usdCurrency : String := "usd"

/-- A line item reconstructed from the session metadata's `itemsJson`
payload (the JSON round-trip through the provider is modelled by
carrying the structured list directly). -/
structure MetaItem where
  productId : String
  quantity : ℤ
  price : ℚ
  name : String := ""
  size : Option String := none
  color : Option String := none
  imageUrl : String := ""
deriving DecidableEq, Repr

/-- Order `status` enum. -/
inductive OrderStatus
| pending
| paid
| processing
| shipped
| delivered
| cancelled
| refunded
deriving DecidableEq, Repr

/-- Order document (orderSchema).  `stripeSessionId` carries a `unique`
index at the storage layer; inserting a second order with the same
session id fails (see `fulfill`). -/
structure Order where
  userId : String
  items : List MetaItem
  subtotal : ℚ
  discount : ℚ := 0
  couponCode : Option String := none
  total : ℚ
  currency : String := "usd"
  stripeSessionId : String
  stripePaymentIntentId : Option String := none
  status : OrderStatus := .pending
deriving DecidableEq, Repr

/-- The `checkout.session.completed` payload consumed by the webhook:
session id, settled amount in minor units (`amount_total || 0` is
modelled by a plain integer), currency, payment intent, and the
metadata written at session-creation time (user id, coupon code — empty
string already collapsed to `none` per `|| null` — cart id, items). -/
structure SessionData where
  id : String
  amountTotal : ℤ := 0
  currency : Option String := none
  paymentIntent : Option String := none
  userId : String
  couponCode : Option String := none
  cartId : Option String := none
  items : List MetaItem := []
deriving DecidableEq, Repr

/-- Event type: the webhook only acts on `checkout.session.completed`. -/
inductive EventType
| checkoutSessionCompleted
| other
deriving DecidableEq, Repr

/-- A signature-verified provider event. -/
structure Event where
  type : EventType
  data : SessionData
deriving DecidableEq, Repr

/-- The persistent state the webhook touches: orders, per-product stock,
coupons, and carts keyed by cart id. -/
structure StoreState where
  orders : List Order
  stock : String → ℤ
  coupons : List Coupon
  carts : List (String × Cart)

/-- `subtotal = items.reduce((sum, i) => sum + i.price * i.quantity, 0)`. -/
def sessionSubtotal (items : List MetaItem) : ℚ :=
  items.foldl (fun sum i => sum + i.price * (i.quantity : ℚ)) 0

/-- `Product.findByIdAndUpdate(pid, { $inc: { stock: -q } })`. -/
def updateStock (f : String → ℤ) (pid : String) (q : ℤ) : String → ℤ :=
  fun x => if x = pid then f x - q else f x

/-- Total ordered quantity of one product across the metadata items. -/
def orderedQty (items : List MetaItem) (pid : String) : ℤ :=
  (items.map (fun i => if i.productId == pid then i.quantity else 0)).sum

/-- Number of persisted orders whose `stripeSessionId` equals `sid`. -/
def countOrders (st : StoreState) (sid : String) : ℕ :=
  (st.orders.filter (fun o => o.stripeSessionId == sid)).length

/-- The cleared cart written by the webhook:
`{ items: [], appliedCoupon: { code: null, discountType: null, discountValue: 0 } }`. -/
def clearedCart (c : Cart) : Cart :=
  { c with items := [], appliedCoupon := {} }

/-- The order document the webhook builds from the session payload:
subtotal recomputed from the metadata items, discount reconciled as
`round2(subtotal - amountActuallyCharged)` floored at 0, total the
settled amount, status immediately `paid`. -/
def sessionOrder (s : SessionData) : Order :=
  let subtotal := sessionSubtotal s.items
  let totalPaid : ℚ := (s.amountTotal : ℚ) / 100
  let discount := round2 (subtotal - totalPaid)
  { userId := s.userId
    items := s.items
    subtotal := subtotal
    discount := max 0 discount
    couponCode := s.couponCode
    total := totalPaid
    currency := s.currency.getD usdCurrency
    stripeSessionId := s.id
    stripePaymentIntentId := s.paymentIntent
    status := .paid }

/-- The webhook's fulfillment block for a `checkout.session.completed`
event.  `order.save()` throws — rejected by the schema validator when
the item list is empty, and by the unique `stripeSessionId` index when
an order for this session already exists — and the surrounding
`try/catch` then swallows the error before any of the remaining side
effects run, leaving the state unchanged.  Otherwise the order is
persisted, each item's product stock is decremented by its quantity,
usage is recorded on the coupon named in the metadata (when it
resolves), and the originating cart (when a cart id is present) is
cleared. -/
def fulfill (st : StoreState) (s : SessionData) : StoreState :=
  if s.items.isEmpty || st.orders.any (fun o => o.stripeSessionId == s.id) then st
  else
    { orders := st.orders ++ [sessionOrder s]
      stock := s.items.foldl (fun f i => updateStock f i.productId i.quantity) st.stock
      coupons := match s.couponCode with
        | none => st.coupons
        | some code => st.coupons.map (fun cp =>
            if cp.code == code then
              cp.recordUsage (if s.userId = "" then none else some s.userId)
            else cp)
      carts := match s.cartId with
        | none => st.carts
        | some cid => st.carts.map (fun pr =>
            if pr.1 == cid then (pr.1, clearedCart pr.2) else pr) }

/-- The webhook endpoint's response: a 400 on signature failure,
`{ received: true }` otherwise. -/
inductive WebhookResponse
| sigError
| received
deriving DecidableEq, Repr

/-- `handleWebhook`: `constructWebhookEvent` (the provider-side
signature verification, external to this repository) is modelled by the
`verified` argument — `none` when verification throws.  A failed
verification is answered with a 400 and touches nothing; a verified
event is acknowledged with `{ received: true }` whether or not the
fulfillment block succeeded, and events of any other type are
acknowledged without processing. -/
def handleWebhook (verified : Option Event) (st : StoreState) :
    WebhookResponse × StoreState :=
  match verified with
  | none => (.sigError, st)
  | some ev =>
    match ev.type with
    | .checkoutSessionCompleted => (.received, fulfill st ev.data)
    | .other => (.received, st)

/-! ## Concrete instances used by witnesses and counterexamples -/

/-- A 100%-off coupon with no cap. -/
def couponC3ex : Coupon :=
  { code := "PCT100", discountType := .percentage, discountValue := 100 }

/-- The §8 example coupon: 20% off capped at $5. -/
def couponC3wit : Coupon :=
  { code := "PCT20CAP5", discountType := .percentage, discountValue := 20,
    maxDiscount := some 5 }

/-- An unrestricted active coupon (no expiry, no usage limit). -/
def couponC2wit : Coupon :=
  { code := "OPEN10", discountType := .fixed, discountValue := 10 }

/-- A single-use negotiation-style coupon (`usageLimit = 1`,
`onePerUser = true`). -/
def negotiatedCouponEx : Coupon :=
  { code := "DEAL-AAAAAA", discountType := .percentage, discountValue := 10,
    usageLimit := some 1, onePerUser := true }

/-- A cart holding one item priced at $0.006 (JS numbers put no
2-decimal constraint on the price snapshot), without a coupon. -/
def cartC4ex : Cart :=
  { userId := "u1", items := [{ productId := "p1", quantity := 1, price := 3 / 500 }] }

/-- The §8 example cart: one item at $30 × 2 with a fixed $100 coupon
snapshot applied. -/
def cartC4wit : Cart :=
  { userId := "u1"
    items := [{ productId := "p1", quantity := 2, price := 30 }]
    appliedCoupon := { code := some "SAVE100", discountType := some .fixed,
                       discountValue := 100 } }

/-- A cart whose applied percentage snapshot exceeds 100%. -/
def cartC5ex : Cart :=
  { userId := "u1"
    items := [{ productId := "p1", quantity := 1, price := 10 }]
    appliedCoupon := { code := some "PCT200", discountType := some .percentage,
                       discountValue := 200 } }

/-- A cart with a fixed $100 coupon snapshot on a $60 subtotal. -/
def cartC5wit : Cart :=
  { userId := "u1"
    items := [{ productId := "p1", quantity := 2, price := 30 }]
    appliedCoupon := { code := some "SAVE100", discountType := some .fixed,
                       discountValue := 100 } }

/-- The §8 negotiation example product: current price $100, hidden
floor $85, negotiation enabled. -/
def productC7wit : Product :=
  { name := "Lamp", price := 100, stock := 10, negotiationEnabled := true,
    hiddenBottomPrice := some 85 }

/-- An active product with 5 units in stock. -/
def productC8 : Product :=
  { name := "Mug", price := 12, stock := 5 }

/-- Catalog lookup exposing only `productC8` under id `"p8"`. -/
def lookupC8 : String → Option Product :=
  fun pid => if pid = "p8" then some productC8 else none

/-- An empty cart. -/
def cartC8 : Cart := { userId := "u8" }

/-- A cart requesting 6 units of the 5-stock product. -/
def overCartC8 : Cart :=
  { userId := "u8", items := [{ productId := "p8", quantity := 6, price := 12 }] }

/-- A product for the sync example: stock 10, discounted price $8. -/
def productC10 : Product :=
  { name := "Cap", price := 9, discountedPrice := some 8, stock := 10 }

/-- Catalog lookup exposing only `productC10` under id `"p10"`. -/
def lookupC10 : String → Option Product :=
  fun pid => if pid = "p10" then some productC10 else none

/-- An existing cart line for the sync example: 3 units at the stale
price $9. -/
def lineC10 : CartItem :=
  { productId := "p10", quantity := 3, price := 9 }

/-- An incoming local-storage line for the sync example: 20 more units
(to be clamped to stock). -/
def incomingC10 : IncomingItem :=
  { productId := "p10", quantity := 20 }

/-- A single-use coupon referenced by the fulfillment example. -/
def couponC1 : Coupon :=
  { code := "DEAL-BBBBBB", discountType := .percentage, discountValue := 10,
    usageLimit := some 1 }

/-- Initial store state for the fulfillment example: no orders, 10
units of every product, one coupon, one cart. -/
def storeC1 : StoreState :=
  { orders := []
    stock := fun _ => 10
    coupons := [couponC1]
    carts := [("u1", cartC5wit)] }

/-- A signature-verified `checkout.session.completed` event for session
`sess-1`: two units of product `p1`, coupon `DEAL-BBBBBB`, cart `u1`. -/
def eventC1 : Event :=
  { type := .checkoutSessionCompleted
    data :=
      { id := "sess-1"
        amountTotal := 5400
        userId := "u1"
        couponCode := some "DEAL-BBBBBB"
        cartId := some "u1"
        items := [{ productId := "p1", quantity := 2, price := 30 }] } }

/-! ## Helper lemmas about half-up rounding -/

lemma ite_gt_eq_min (d m : ℚ) : (if d > m then m else d) = min d m := by
  rcases le_or_lt d m with h | h
  · rw [if_neg (not_lt.2 h), min_eq_left h]
  · rw [if_pos h, min_eq_right h.le]

lemma round2_nonneg (x : ℚ) (h : 0 ≤ x) : 0 ≤ round2 x := by
  have h0 : (0 : ℤ) ≤ ⌊x * 100 + 1 / 2⌋ := by
    apply Int.le_floor.2
    push_cast
    nlinarith
  unfold round2
  refine div_nonneg ?_ (by norm_num)
  exact_mod_cast h0

lemma round2_le_cents (x : ℚ) (n : ℤ) (h : x ≤ (n : ℚ) / 100) :
    round2 x ≤ (n : ℚ) / 100 := by
  unfold round2
  have h1 : x * 100 + 1 / 2 ≤ (n : ℚ) + 1 / 2 := by nlinarith
  have h2 : ⌊x * 100 + 1 / 2⌋ ≤ ⌊(n : ℚ) + 1 / 2⌋ := Int.floor_le_floor h1
  have h3 : ⌊(n : ℚ) + 1 / 2⌋ = n := by
    rw [Int.floor_eq_iff]
    norm_num
  rw [h3] at h2
  have h4 : ((⌊x * 100 + 1 / 2⌋ : ℤ) : ℚ) ≤ (n : ℚ) := by exact_mod_cast h2
  linarith

lemma round2_cents (n : ℤ) : round2 ((n : ℚ) / 100) = (n : ℚ) / 100 := by
  unfold round2
  have h3 : ⌊(n : ℚ) / 100 * 100 + 1 / 2⌋ = n := by
    have h0 : (n : ℚ) / 100 * 100 = (n : ℚ) := by field_simp
    rw [h0, Int.floor_eq_iff]
    norm_num
  rw [h3]

/-! ## C2: ordered validity checks -/

/-- C2: `Coupon.isValid` applies the five checks in the fixed order
inactive → expired → usage-limit reached → one-per-user → below
minimum purchase, returning the distinct reason of the first failing
check, and a `null` `usageLimit` or `expiresAt` can never produce the
corresponding Invalid result. -/
theorem isValid_ordered_checks (c : Coupon) (now : ℤ) (s : ℚ) (u : String) :
    c.isValid now s (some u) = firstFailing (specChecks c now s u)
    ∧ (c.usageLimit = none → c.isValid now s (some u) ≠ .invalid .usageLimitReached)
    ∧ (c.expiresAt = none → c.isValid now s (some u) ≠ .invalid .expired) := by
  refine ⟨rfl, ?_, ?_⟩
  · intro h
    simp only [Coupon.isValid, h]
    split_ifs <;> simp_all
  · intro h
    simp only [Coupon.isValid, h]
    split_ifs <;> simp_all

/-- C2 witness: a concrete active coupon with both `null` fields. -/
theorem isValid_ordered_checks_witness :
    couponC2wit.isValid 0 50 (some "u1")
      = firstFailing (specChecks couponC2wit 0 50 "u1")
    ∧ couponC2wit.isValid 0 50 (some "u1") ≠ .invalid .usageLimitReached
    ∧ couponC2wit.isValid 0 50 (some "u1") ≠ .invalid .expired := by
  have h := isValid_ordered_checks couponC2wit 0 50 "u1"
  exact ⟨h.1, h.2.1 rfl, h.2.2 rfl⟩

/-! ## C3: calculateDiscount formula and bounds -/

/-- C3 (amended): `calculateDiscount` returns
`round2 (min (min raw cap) subtotal)` with the cap applied before the
subtotal ceiling, the result is a 2-decimal value, and — provided the
discount value and any configured cap are non-negative and the subtotal
is a non-negative whole number of cents — the result lies in
`[0, subtotal]`. -/
theorem calculateDiscount_bounds (c : Coupon) (s : ℚ)
    (hs : 0 ≤ s) (hv : 0 ≤ c.discountValue)
    (hm : ∀ m, c.maxDiscount = some m → 0 ≤ m)
    (hcents : ∃ n : ℤ, s = (n : ℚ) / 100) :
    c.calculateDiscount s = round2 (min (capClamp c (rawDiscount c s)) s)
    ∧ 0 ≤ c.calculateDiscount s
    ∧ c.calculateDiscount s ≤ s
    ∧ ∃ k : ℤ, c.calculateDiscount s = (k : ℚ) / 100 := by
  have hformula : c.calculateDiscount s
      = round2 (min (capClamp c (rawDiscount c s)) s) := by
    rcases hMD : c.maxDiscount with _ | m
    · simp only [Coupon.calculateDiscount, capClamp, rawDiscount, hMD]
    · simp only [Coupon.calculateDiscount, capClamp, rawDiscount, hMD, ite_gt_eq_min]
  have hraw : 0 ≤ rawDiscount c s := by
    unfold rawDiscount
    cases c.discountType
    · exact mul_nonneg hs (div_nonneg hv (by norm_num))
    · exact hv
  have hcap : 0 ≤ capClamp c (rawDiscount c s) := by
    rcases hMD : c.maxDiscount with _ | m
    · simp only [capClamp, hMD]
      exact hraw
    · simp only [capClamp, hMD]
      exact le_min hraw (hm m hMD)
  have hmin : 0 ≤ min (capClamp c (rawDiscount c s)) s := le_min hcap hs
  refine ⟨hformula, ?_, ?_, ?_⟩
  · rw [hformula]
    exact round2_nonneg _ hmin
  · obtain ⟨n, hn⟩ := hcents
    rw [hformula, hn]
    exact round2_le_cents _ n (by rw [← hn]; exact min_le_right _ _)
  · exact ⟨⌊(min (capClamp c (rawDiscount c s)) s) * 100 + 1 / 2⌋, by rw [hformula]; rfl⟩

/-- C3 counterexample: a 100% coupon on the non-cent subtotal $0.006 is
rounded up to $0.01, strictly above the subtotal, so the unrestricted
claim "output always lies in [0, subtotal]" is false. -/
theorem calculateDiscount_exceeds_subtotal_cex :
    couponC3ex.calculateDiscount (3 / 500) = 1 / 100
    ∧ ¬ (couponC3ex.calculateDiscount (3 / 500) ≤ 3 / 500) := by
  constructor
  · norm_num [Coupon.calculateDiscount, couponC3ex, round2]
  · norm_num [Coupon.calculateDiscount, couponC3ex, round2]

/-- C3 witness: the §8 example — $50 subtotal, 20% coupon capped at $5
— stays within `[0, subtotal]` and evaluates to a $5 discount. -/
theorem calculateDiscount_bounds_witness :
    0 ≤ couponC3wit.calculateDiscount 50
    ∧ couponC3wit.calculateDiscount 50 ≤ 50
    ∧ couponC3wit.calculateDiscount 50 = 5 := by
  have h := calculateDiscount_bounds couponC3wit 50 (by norm_num)
    (by norm_num [couponC3wit])
    (by
      intro m hm
      have h5 : couponC3wit.maxDiscount = some 5 := rfl
      rw [h5] at hm
      injection hm with h
      rw [← h]
      norm_num)
    ⟨5000, by norm_num⟩
  refine ⟨h.2.1, h.2.2.1, ?_⟩
  norm_num [Coupon.calculateDiscount, couponC3wit, round2]

/-! ## C6: single-use coupon after one redemption -/

/-- C6 (amended): for a coupon with `usageLimit = 1` and
`onePerUser = true`, after one successful `recordUsage` for user `u`
(`usedCount` becomes 1), a later `isValid` returns Invalid with the
usage-limit-reached reason for **every** user — including `u` — because
the usage-limit check precedes the one-per-user check, so the
already-used reason is unreachable once the limit is consumed. -/
theorem single_use_coupon_exhausted (c : Coupon) (now : ℤ) (s : ℚ) (u v : String)
    (hactive : c.isActive = true)
    (hexp : (match c.expiresAt with
             | some e => decide (now > e)
             | none => false) = false)
    (hlimit : c.usageLimit = some 1)
    (hused : c.usedCount = 0) :
    (c.recordUsage (some u)).isValid now s (some v)
      = .invalid .usageLimitReached := by
  simp only [Coupon.recordUsage, Coupon.isValid, hactive, hexp, hlimit, hused]
  norm_num

/-- C6 counterexample: after `recordUsage` for `u1`, a second `isValid`
for the *same* user returns the usage-limit-reached reason, not the
already-used reason the claim expects. -/
theorem single_use_coupon_reason_cex :
    (negotiatedCouponEx.recordUsage (some "u1")).isValid 0 100 (some "u1")
      = .invalid .usageLimitReached
    ∧ (negotiatedCouponEx.recordUsage (some "u1")).isValid 0 100 (some "u1")
      ≠ .invalid .alreadyUsed := by
  have h1 : (negotiatedCouponEx.recordUsage (some "u1")).isValid 0 100 (some "u1")
      = .invalid .usageLimitReached := by
    norm_num [negotiatedCouponEx, Coupon.recordUsage, Coupon.isValid]
  refine ⟨h1, ?_⟩
  rw [h1]
  decide

/-- C6 witness: the amended behavior at a concrete coupon, for the
redeeming user and for a different user. -/
theorem single_use_coupon_exhausted_witness :
    (negotiatedCouponEx.recordUsage (some "u1")).isValid 7 100 (some "u1")
      = .invalid .usageLimitReached
    ∧ (negotiatedCouponEx.recordUsage (some "u1")).isValid 7 100 (some "u2")
      = .invalid .usageLimitReached := by
  constructor
  · exact single_use_coupon_exhausted negotiatedCouponEx 7 100 "u1" "u1" rfl rfl rfl rfl
  · exact single_use_coupon_exhausted negotiatedCouponEx 7 100 "u1" "u2" rfl rfl rfl rfl

/-! ## C4: cart total derivation -/

lemma foldl_price_nonneg (l : List CartItem) (a : ℚ) (ha : 0 ≤ a)
    (h : ∀ it ∈ l, 0 ≤ it.price ∧ 0 ≤ it.quantity) :
    0 ≤ l.foldl (fun sum item => sum + item.price * (item.quantity : ℚ)) a := by
  induction l generalizing a with
  | nil => exact ha
  | cons it rest ih =>
    have hit := h it (List.mem_cons_self it rest)
    have hq : (0 : ℚ) ≤ (it.quantity : ℚ) := by exact_mod_cast hit.2
    refine ih (a + it.price * (it.quantity : ℚ)) ?_ ?_
    · have := mul_nonneg hit.1 hq
      linarith
    · intro x hx
      exact h x (List.mem_cons_of_mem it hx)

lemma subtotal_nonneg (c : Cart)
    (h : ∀ it ∈ c.items, 0 ≤ it.price ∧ 0 ≤ it.quantity) : 0 ≤ c.subtotal :=
  foldl_price_nonneg c.items 0 le_rfl h

lemma cart_discount_nonneg (c : Cart) (hsub : 0 ≤ c.subtotal)
    (hv : 0 ≤ c.appliedCoupon.discountValue) : 0 ≤ c.discount := by
  unfold Cart.discount
  rcases c.appliedCoupon.code with _ | co
  · exact le_rfl
  · rcases hdt : c.appliedCoupon.discountType with _ | dt
    · exact le_rfl
    · cases dt
      · exact round2_nonneg _ (mul_nonneg hsub (div_nonneg hv (by norm_num)))
      · exact le_min hv hsub

/-- C4 (amended): every cart's total equals
`max 0 (round2 (subtotal - discount))` and is non-negative; and
whenever the line items are non-negative, the coupon snapshot value is
non-negative, and the subtotal is a whole number of cents, the total
also never exceeds the subtotal.  (Without the whole-cents condition
the final half-up rounding can push the total up to half a cent above
the subtotal — see the counterexample.) -/
theorem cart_total_spec (c : Cart)
    (hitems : ∀ it ∈ c.items, 0 ≤ it.price ∧ 0 ≤ it.quantity)
    (hv : 0 ≤ c.appliedCoupon.discountValue)
    (hcents : ∃ n : ℤ, c.subtotal = (n : ℚ) / 100) :
    c.total = max 0 (round2 (c.subtotal - c.discount))
    ∧ 0 ≤ c.total
    ∧ c.total ≤ c.subtotal := by
  have hsub : 0 ≤ c.subtotal := subtotal_nonneg c hitems
  have hd : 0 ≤ c.discount := cart_discount_nonneg c hsub hv
  refine ⟨rfl, le_max_left _ _, ?_⟩
  obtain ⟨n, hn⟩ := hcents
  have h1 : c.subtotal - c.discount ≤ (n : ℚ) / 100 := by
    rw [← hn]
    linarith
  have h2 : round2 (c.subtotal - c.discount) ≤ (n : ℚ) / 100 :=
    round2_le_cents _ n h1
  unfold Cart.total
  exact max_le hsub (le_of_le_of_eq h2 hn.symm)

/-- C4 counterexample: a couponless cart holding a single item priced
at $0.006 has subtotal $0.006 but total `round2(0.006) = $0.01`, so
"total ≤ subtotal" fails for carts whose subtotal is not a whole number
of cents. -/
theorem cart_total_exceeds_subtotal_cex :
    cartC4ex.subtotal = 3 / 500
    ∧ cartC4ex.total = 1 / 100
    ∧ ¬ (cartC4ex.total ≤ cartC4ex.subtotal) := by
  refine ⟨by norm_num [Cart.subtotal, cartC4ex], ?_, ?_⟩
  · norm_num [Cart.total, Cart.subtotal, Cart.discount, cartC4ex, round2]
  · norm_num [Cart.total, Cart.subtotal, Cart.discount, cartC4ex, round2]

/-- C4 witness: the §8 example cart ($30 × 2, fixed $100 coupon) — the
discount clamps to the $60 subtotal and the total floors at $0, never
negative. -/
theorem cart_total_spec_witness :
    cartC4wit.total = max 0 (round2 (cartC4wit.subtotal - cartC4wit.discount))
    ∧ 0 ≤ cartC4wit.total
    ∧ cartC4wit.total ≤ cartC4wit.subtotal
    ∧ cartC4wit.discount = 60
    ∧ cartC4wit.total = 0 := by
  have h := cart_total_spec cartC4wit
    (by
      intro it hit
      simp only [cartC4wit, List.mem_singleton] at hit
      rw [hit]
      norm_num)
    (by norm_num [cartC4wit])
    ⟨6000, by norm_num [Cart.subtotal, cartC4wit]⟩
  refine ⟨h.1, h.2.1, h.2.2, ?_, ?_⟩
  · norm_num [Cart.discount, Cart.subtotal, cartC4wit]
  · norm_num [Cart.total, Cart.discount, Cart.subtotal, cartC4wit, round2]

/-! ## C5: cart discount vs the coupon engine -/

/-- C5 (amended): the cart's discount virtual is 0 without an applied
coupon code; with a code it agrees with
`Coupon.calculateDiscount` on the snapshot coupon for percentage
snapshots of at most 100% (on a non-negative subtotal), and for fixed
snapshots whenever `min(discountValue, subtotal)` is a whole number of
cents.  (In general the virtual differs: it omits the subtotal clamp
for percentage snapshots and the final rounding for fixed snapshots —
see the counterexample.) -/
theorem cart_discount_refines_engine (c : Cart) (hs : 0 ≤ c.subtotal) :
    (c.appliedCoupon.code = none → c.discount = 0)
    ∧ (∀ co, c.appliedCoupon.code = some co →
        (c.appliedCoupon.discountType = some .percentage →
          c.appliedCoupon.discountValue ≤ 100 →
          c.discount = (snapshotCoupon c.appliedCoupon .percentage).calculateDiscount c.subtotal)
        ∧ (c.appliedCoupon.discountType = some .fixed →
          (∃ n : ℤ, min c.appliedCoupon.discountValue c.subtotal = (n : ℚ) / 100) →
          c.discount = (snapshotCoupon c.appliedCoupon .fixed).calculateDiscount c.subtotal)) := by
  constructor
  · intro h
    unfold Cart.discount
    rw [h]
  · intro co hco
    constructor
    · intro ht hv100
      have hraw : c.subtotal * (c.appliedCoupon.discountValue / 100) ≤ c.subtotal := by
        nlinarith
      unfold Cart.discount
      rw [hco, ht]
      simp only [Coupon.calculateDiscount, snapshotCoupon]
      rw [min_eq_left hraw]
    · intro ht hn
      obtain ⟨n, hn⟩ := hn
      unfold Cart.discount
      rw [hco, ht]
      simp only [Coupon.calculateDiscount, snapshotCoupon]
      rw [hn, round2_cents]

/-- C5 counterexample: a 200% percentage snapshot on a $10 subtotal —
the cart virtual reports a $20 discount while the coupon engine, on the
same snapshot fields, clamps to the $10 subtotal; the two computations
are not equivalent. -/
theorem cart_discount_engine_mismatch_cex :
    cartC5ex.discount = 20
    ∧ (snapshotCoupon cartC5ex.appliedCoupon .percentage).calculateDiscount cartC5ex.subtotal = 10
    ∧ cartC5ex.discount
      ≠ (snapshotCoupon cartC5ex.appliedCoupon .percentage).calculateDiscount cartC5ex.subtotal := by
  refine ⟨?_, ?_, ?_⟩
  · norm_num [Cart.discount, Cart.subtotal, cartC5ex, round2]
  · norm_num [Coupon.calculateDiscount, snapshotCoupon, Cart.subtotal, cartC5ex, round2]
  · norm_num [Cart.discount, Coupon.calculateDiscount, snapshotCoupon, Cart.subtotal,
      cartC5ex, round2]

/-- C5 witness: on a fixed $100 snapshot over a $60 subtotal (whole
cents), the cart virtual and the coupon engine agree. -/
theorem cart_discount_refines_engine_witness :
    cartC5wit.discount
      = (snapshotCoupon cartC5wit.appliedCoupon .fixed).calculateDiscount cartC5wit.subtotal := by
  have h := cart_discount_refines_engine cartC5wit
    (by norm_num [Cart.subtotal, cartC5wit])
  exact (h.2 "SAVE100" rfl).2 rfl ⟨6000, by norm_num [Cart.subtotal, cartC5wit]⟩

/-! ## C7: negotiated-discount validation gate -/

/-- C7: for a negotiation-enabled product with a positive floor price,
`validateDiscount` computes the proposed amount as the coupon engine
does (percentage: `price * value/100`; fixed: `value`), rejects exactly
when the current price minus that amount falls strictly below the
floor, and on rejection reports `maxDiscount = currentPrice - floor`
and its percentage equivalent floored to one decimal; it is a pure
function of the product and proposal (no coupon or product mutation). -/
theorem validateDiscount_spec (p : Product) (dt : DiscountType) (v b : ℚ)
    (hneg : p.negotiationEnabled = true)
    (hb : p.hiddenBottomPrice = some b) (hbpos : 0 < b) :
    validateDiscount p dt v =
      (if p.effectivePrice - proposedAmount p.effectivePrice dt v < b then
        .rejected (p.effectivePrice - b)
          (floor1 ((p.effectivePrice - b) / p.effectivePrice * 100))
      else
        .allowed (round2 (proposedAmount p.effectivePrice dt v))
          (round2 (p.effectivePrice - proposedAmount p.effectivePrice dt v))
          (round2 (p.effectivePrice - b))) := by
  unfold validateDiscount Product.effectivePrice
  rw [hneg, hb]
  simp only [Bool.not_true, Bool.false_eq_true, if_false, if_neg (not_le.2 hbpos)]

/-- C7 witness: the §8 example — current price $100, floor $85,
proposed fixed $20 → Rejected with `maxDiscount = 15`,
`maxPercentage = 15.0`. -/
theorem validateDiscount_spec_witness :
    validateDiscount productC7wit .fixed 20 = .rejected 15 15 := by
  have h := validateDiscount_spec productC7wit .fixed 20 85 rfl rfl (by norm_num)
  rw [h]
  norm_num [Product.effectivePrice, productC7wit, proposedAmount, floor1]

/-! ## Helper lemmas about find-first-match-and-update -/

lemma findIdx?_prefix_match {α : Type} (p : α → Bool) (pre post : List α) (it : α)
    (hpre : ∀ x ∈ pre, p x = false) (hit : p it = true) :
    (pre ++ it :: post).findIdx? p = some pre.length := by
  induction pre with
  | nil => simp [hit]
  | cons a rest ih =>
    have ha := hpre a (by simp)
    have ih2 := ih (fun x hx => hpre x (by simp [hx]))
    simp only [List.cons_append, List.findIdx?_cons, ha, if_false,
      List.findIdx?_start_succ, ih2, Option.map_some]
    simp

lemma getElem?_prefix_match {α : Type} (pre post : List α) (it : α) :
    (pre ++ it :: post)[pre.length]? = some it := by
  rw [List.getElem?_append_right le_rfl]
  simp

lemma set_prefix_match {α : Type} (pre post : List α) (it v : α) :
    (pre ++ it :: post).set pre.length v = pre ++ v :: post := by
  rw [List.set_append]
  simp

lemma min_add_min_absorb (a b s : ℤ) (ha : 0 ≤ a) :
    min (a + min b s) s = min (a + b) s := by omega

/-! ## C10: syncCart merge semantics -/

/-- C10: for each incoming item, syncCart silently skips it when its
product is missing or inactive; with an active product it appends a new
line with quantity `min(requested-or-1, stock)` when no line matches
the (product, size, color) key, and otherwise updates the first
matching line to quantity `min(existing + requested-or-1, stock)` while
resetting its price snapshot to the product's current effective price
(`discountedPrice ?? price`). -/
theorem syncCart_step_spec (lookup : String → Option Product)
    (items : List CartItem) (inc : IncomingItem) :
    (lookup inc.productId = none → syncOne lookup items inc = items)
    ∧ (∀ p, lookup inc.productId = some p → p.isActive = false →
        syncOne lookup items inc = items)
    ∧ (∀ p, lookup inc.productId = some p → p.isActive = true →
        (∀ x ∈ items, itemMatches inc.productId (normOpt inc.size) (normOpt inc.color) x = false) →
        syncOne lookup items inc = items ++
          [{ productId := inc.productId
             quantity := min (quantityOr1 inc.quantity) p.stock
             size := normOpt inc.size
             color := normOpt inc.color
             price := p.effectivePrice }])
    ∧ (∀ p pre it post, lookup inc.productId = some p → p.isActive = true →
        items = pre ++ it :: post →
        (∀ x ∈ pre, itemMatches inc.productId (normOpt inc.size) (normOpt inc.color) x = false) →
        itemMatches inc.productId (normOpt inc.size) (normOpt inc.color) it = true →
        0 ≤ it.quantity →
        syncOne lookup items inc = pre ++
          { it with
            quantity := min (it.quantity + quantityOr1 inc.quantity) p.stock
            price := p.effectivePrice } :: post) := by
  refine ⟨?_, ?_, ?_, ?_⟩
  · intro h
    simp only [syncOne, h]
  · intro p hp hinact
    simp only [syncOne, hp, hinact, Bool.not_false, if_true]
  · intro p hp hact hnone
    have hfind : items.findIdx?
        (fun x => itemMatches inc.productId (normOpt inc.size) (normOpt inc.color) x) = none :=
      List.findIdx?_eq_none_iff.2 hnone
    simp only [syncOne, hp, hact, Bool.not_true, Bool.false_eq_true, if_false, hfind]
  · intro p pre it post hp hact heq hpre hit hq
    subst heq
    have hfind := findIdx?_prefix_match
      (fun x => itemMatches inc.productId (normOpt inc.size) (normOpt inc.color) x)
      pre post it hpre hit
    have hget := getElem?_prefix_match pre post it
    simp only [syncOne, hp, hact, Bool.not_true, Bool.false_eq_true, if_false, hfind, hget]
    rw [min_add_min_absorb it.quantity (quantityOr1 inc.quantity) p.stock hq,
      set_prefix_match]

/-- C10 witness: syncing an incoming request for 20 more units of a
10-stock product onto an existing 3-unit line clamps the merged line to
10 units and refreshes its price snapshot to the discounted price $8. -/
theorem syncCart_step_spec_witness :
    syncCart lookupC10 [lineC10] [incomingC10]
      = [{ productId := "p10", quantity := 10, size := none, color := none,
           price := 8 }] := by
  have h := (syncCart_step_spec lookupC10 [lineC10] incomingC10).2.2.2
    productC10 [] lineC10 [] rfl rfl rfl
    (by intro x hx; cases hx)
    (by rfl)
    (by norm_num [lineC10])
  have h2 : syncCart lookupC10 [lineC10] [incomingC10]
      = syncOne lookupC10 [lineC10] incomingC10 := rfl
  rw [h2, h]
  norm_num [lineC10, incomingC10, productC10, quantityOr1, Product.effectivePrice]

/-! ## C8: stock boundary at add-to-cart and checkout creation -/

lemma validateCheckoutItems_isSome_of_bad (lookup : String → Option Product)
    (items : List CartItem) (it : CartItem) (hmem : it ∈ items)
    (hbad : lookup it.productId = none
      ∨ ∃ q, lookup it.productId = some q ∧ (q.isActive = false ∨ q.stock < it.quantity)) :
    ∃ msg, validateCheckoutItems lookup items = some msg := by
  induction items with
  | nil => cases hmem
  | cons a rest ih =>
    rcases hla : lookup a.productId with _ | q
    · exact ⟨unavailableMessage a.productId, by simp only [validateCheckoutItems, hla]⟩
    · by_cases hqa : q.isActive = true
      · by_cases hqs : q.stock < a.quantity
        · refine ⟨checkoutStockMessage q.name q.stock, ?_⟩
          simp only [validateCheckoutItems, hla, hqa, Bool.not_true, Bool.false_eq_true,
            if_false, if_pos hqs]
        · have hrest : it ∈ rest := by
            rcases List.mem_cons.1 hmem with h | h
            · exfalso
              subst h
              rcases hbad with h0 | ⟨q2, hq2, hbad2⟩
              · rw [h0] at hla
                cases hla
              · rw [hq2] at hla
                injection hla with hqq
                subst hqq
                rcases hbad2 with h3 | h3
                · rw [hqa] at h3
                  cases h3
                · exact hqs h3
            · exact h
          obtain ⟨msg, hmsg⟩ := ih hrest
          refine ⟨msg, ?_⟩
          simp only [validateCheckoutItems, hla, hqa, Bool.not_true, Bool.false_eq_true,
            if_false, if_neg hqs, hmsg]
      · have hqa2 : q.isActive = false := by
          cases hqi : q.isActive
          · rfl
          · exact absurd hqi hqa
        refine ⟨unavailableMessage q.name, ?_⟩
        simp only [validateCheckoutItems, hla, hqa2, Bool.not_false, if_true]

/-- C8: with an active product and no already-matching cart line,
adding exactly the available stock succeeds while adding stock + 1
fails with the message naming the available count; and at
checkout-session creation any single missing/inactive product or stock
shortfall fails the whole operation with an error (no session value is
produced). -/
theorem stock_boundary_spec (lookup : String → Option Product) (cart : Cart)
    (pid : String) (p : Product)
    (hp : lookup pid = some p) (hact : p.isActive = true)
    (hnomatch : ∀ x ∈ cart.items, itemMatches pid none none x = false) :
    (∃ c2, addToCart lookup cart { productId := pid, quantity := p.stock } = .ok c2)
    ∧ addToCart lookup cart { productId := pid, quantity := p.stock + 1 }
        = .error (stockMessage p.stock)
    ∧ ∀ (coupons : List Coupon) (cart2 : Cart) (it : CartItem), it ∈ cart2.items →
        (lookup it.productId = none
          ∨ ∃ q, lookup it.productId = some q ∧ (q.isActive = false ∨ q.stock < it.quantity)) →
        ∃ msg, createCheckoutFromCart lookup coupons cart2 = .error msg := by
  refine ⟨?_, ?_, ?_⟩
  · have hfind : cart.items.findIdx? (fun x => itemMatches pid none none x) = none :=
      List.findIdx?_eq_none_iff.2 (fun x hx => hnomatch x hx)
    refine ⟨{ cart with items := cart.items ++
      [{ productId := pid, quantity := p.stock, size := none, color := none,
         price := p.effectivePrice }] }, ?_⟩
    simp only [addToCart, hp, hact, Bool.not_true, Bool.false_eq_true, if_false,
      if_neg (lt_irrefl p.stock), addToCart.addToCartCheckColor, addToCart.addToCartCore,
      hfind, normOpt]
  · simp only [addToCart, hp, hact, Bool.not_true, Bool.false_eq_true, if_false,
      if_pos (lt_add_one p.stock)]
  · intro coupons cart2 it hmem hbad
    have hne : cart2.items.isEmpty = false := by
      cases h0 : cart2.items
      · rw [h0] at hmem
        cases hmem
      · rfl
    obtain ⟨msg, hmsg⟩ := validateCheckoutItems_isSome_of_bad lookup cart2.items it hmem hbad
    refine ⟨msg, ?_⟩
    simp only [createCheckoutFromCart, hne, Bool.false_eq_true, if_false, hmsg]

/-- C8 witness: for a 5-stock product, adding 5 to an empty cart
succeeds, adding 6 fails with the message naming the count 5, and a
checkout over a cart requesting 6 fails before producing a session. -/
theorem stock_boundary_spec_witness :
    (∃ c2, addToCart lookupC8 cartC8 { productId := "p8", quantity := 5 } = .ok c2)
    ∧ addToCart lookupC8 cartC8 { productId := "p8", quantity := 6 }
        = .error (stockMessage 5)
    ∧ ∃ msg, createCheckoutFromCart lookupC8 [] overCartC8 = .error msg := by
  have h := stock_boundary_spec lookupC8 cartC8 "p8" productC8 rfl rfl
    (by intro x hx; simp [cartC8] at hx)
  refine ⟨h.1, h.2.1, ?_⟩
  refine h.2.2 [] overCartC8 { productId := "p8", quantity := 6, price := 12 } ?_ ?_
  · simp [overCartC8]
  · exact Or.inr ⟨productC8, rfl, Or.inr (by norm_num [productC8])⟩

/-! ## C9: webhook acknowledgement discipline -/

/-- C9: a delivery whose signature fails verification is rejected with
an error response and the state is returned untouched (no order, stock,
coupon, or cart change); every signature-verified event — of any type,
and whether the fulfillment block applied its side effects or bailed
out — is acknowledged with `{received: true}`. -/
theorem webhook_ack_spec (st : StoreState) :
    handleWebhook none st = (.sigError, st)
    ∧ ∀ ev : Event, (handleWebhook (some ev) st).1 = .received := by
  refine ⟨rfl, ?_⟩
  intro ev
  rcases ev with ⟨ty, d⟩
  cases ty
  · rfl
  · rfl

/-! ## C1: duplicate delivery of the same confirmation event -/

lemma foldl_updateStock (items : List MetaItem) (f : String → ℤ) (pid : String) :
    (items.foldl (fun g i => updateStock g i.productId i.quantity) f) pid
      = f pid - orderedQty items pid := by
  induction items generalizing f with
  | nil => simp [orderedQty]
  | cons i rest ih =>
    rw [List.foldl_cons, ih]
    have hq : orderedQty (i :: rest) pid
        = (if i.productId == pid then i.quantity else 0) + orderedQty rest pid := by
      simp [orderedQty]
    rw [hq]
    unfold updateStock
    by_cases h : pid = i.productId
    · have hb : (i.productId == pid) = true := by
        rw [beq_iff_eq]
        exact h.symm
      simp only [if_pos h, hb, if_true]
      ring
    · have hb : (i.productId == pid) = false := by
        rw [beq_eq_false_iff_ne]
        exact fun hh => h hh.symm
      simp only [if_neg h, hb, Bool.false_eq_true, if_false]
      ring

lemma orders_any_eq_false_of_countOrders_zero (st : StoreState) (sid : String)
    (h : countOrders st sid = 0) :
    st.orders.any (fun o => o.stripeSessionId == sid) = false := by
  rw [List.any_eq_false]
  intro o ho
  unfold countOrders at h
  rw [List.length_eq_zero] at h
  have h2 := List.filter_eq_nil_iff.1 h o ho
  simpa using h2

lemma fulfill_dup (st : StoreState) (s : SessionData)
    (h : st.orders.any (fun o => o.stripeSessionId == s.id) = true) :
    fulfill st s = st := by
  unfold fulfill
  rw [h, Bool.or_true]
  rfl

lemma recordUsage_bounds (cp : Coupon) (uid : Option String) :
    (cp.recordUsage uid).code = cp.code
    ∧ (cp.recordUsage uid).usedCount ≤ cp.usedCount + 1
    ∧ (cp.recordUsage uid).usedBy.length ≤ cp.usedBy.length + 1 := by
  unfold Coupon.recordUsage
  refine ⟨rfl, le_rfl, ?_⟩
  cases uid
  · simp
  · simp

/-- C1: two sequential deliveries of the same verified
`checkout.session.completed` event for a fresh session `S` leave the
state exactly where the first delivery left it (the unique
`stripeSessionId` index makes the second `order.save()` fail into the
`catch`, skipping every later side effect): exactly one order for `S`
exists, every product's stock is decremented by its ordered quantity
exactly once, and no coupon gains more than one usage record or
`usedCount` increment. -/
theorem webhook_duplicate_delivery_idempotent (st : StoreState) (ev : Event) (S : String)
    (hS : ev.data.id = S)
    (htype : ev.type = .checkoutSessionCompleted)
    (hzero : countOrders st S = 0)
    (hne : ev.data.items ≠ []) :
    (handleWebhook (some ev) (handleWebhook (some ev) st).2).2
        = (handleWebhook (some ev) st).2
    ∧ countOrders (handleWebhook (some ev) (handleWebhook (some ev) st).2).2 S = 1
    ∧ (∀ pid, (handleWebhook (some ev) (handleWebhook (some ev) st).2).2.stock pid
        = st.stock pid - orderedQty ev.data.items pid)
    ∧ (∀ cp ∈ st.coupons, ∃ cp',
        cp' ∈ (handleWebhook (some ev) (handleWebhook (some ev) st).2).2.coupons
        ∧ cp'.code = cp.code
        ∧ cp'.usedCount ≤ cp.usedCount + 1
        ∧ cp'.usedBy.length ≤ cp.usedBy.length + 1) := by
  subst hS
  rcases ev with ⟨ty, s⟩
  cases htype
  have hempty : s.items.isEmpty = false := by
    cases hI : s.items
    · exact absurd hI hne
    · rfl
  have hany0 : st.orders.any (fun o => o.stripeSessionId == s.id) = false :=
    orders_any_eq_false_of_countOrders_zero st s.id hzero
  have hguard : (s.items.isEmpty
      || st.orders.any (fun o => o.stripeSessionId == s.id)) = false := by
    rw [hempty, hany0]
    rfl
  have horders1 : (fulfill st s).orders = st.orders ++ [sessionOrder s] := by
    unfold fulfill
    rw [hguard]
    rfl
  have hstock1 : (fulfill st s).stock
      = s.items.foldl (fun f i => updateStock f i.productId i.quantity) st.stock := by
    unfold fulfill
    rw [hguard]
    rfl
  have hcoupons1 : (fulfill st s).coupons
      = (match s.couponCode with
        | none => st.coupons
        | some code => st.coupons.map (fun cp =>
            if cp.code == code then
              cp.recordUsage (if s.userId = "" then none else some s.userId)
            else cp)) := by
    unfold fulfill
    rw [hguard]
    rfl
  have hbeq : ((sessionOrder s).stripeSessionId == s.id) = true := by
    rw [beq_iff_eq]
    rfl
  have hany1 : (fulfill st s).orders.any (fun o => o.stripeSessionId == s.id) = true := by
    rw [horders1, List.any_append]
    simp [hbeq]
  have hdup : fulfill (fulfill st s) s = fulfill st s := fulfill_dup _ s hany1
  have hred : (handleWebhook (some ⟨.checkoutSessionCompleted, s⟩)
      (handleWebhook (some ⟨.checkoutSessionCompleted, s⟩) st).2).2
      = fulfill (fulfill st s) s := rfl
  rw [hred, hdup]
  have hzero2 : (st.orders.filter (fun o => o.stripeSessionId == s.id)).length = 0 := hzero
  refine ⟨rfl, ?_, ?_, ?_⟩
  · unfold countOrders
    rw [horders1, List.filter_append]
    simp [hbeq, hzero2]
  · intro pid
    rw [hstock1, foldl_updateStock]
  · intro cp hcp
    rw [hcoupons1]
    rcases hcc : s.couponCode with _ | code
    · exact ⟨cp, hcp, rfl, Nat.le_succ _, Nat.le_succ _⟩
    · refine ⟨if cp.code == code then
          cp.recordUsage (if s.userId = "" then none else some s.userId)
        else cp, ?_, ?_⟩
      · exact List.mem_map_of_mem _ hcp
      · by_cases hco : cp.code == code
        · rw [if_pos hco]
          exact recordUsage_bounds cp _
        · rw [if_neg hco]
          exact ⟨rfl, Nat.le_succ _, Nat.le_succ _⟩

/-- C1 witness: a concrete double delivery — one order for `sess-1`,
stock of `p1` decremented from 10 to 8 exactly once. -/
theorem webhook_duplicate_delivery_idempotent_witness :
    countOrders (handleWebhook (some eventC1)
        (handleWebhook (some eventC1) storeC1).2).2 "sess-1" = 1
    ∧ (handleWebhook (some eventC1)
        (handleWebhook (some eventC1) storeC1).2).2.stock "p1" = 8 := by
  have h := webhook_duplicate_delivery_idempotent storeC1 eventC1 "sess-1"
    rfl rfl rfl (List.cons_ne_nil _ _)
  refine ⟨h.2.1, ?_⟩
  have h2 := h.2.2.1 "p1"
  rw [h2]
  norm_num [storeC1, eventC1, orderedQty]

end Softronix
